import Mathlib

/-!
Verification development for the wocker mariadb plugin.

Shallow embedding of the plugin's data model (`makes/Service.ts`,
`makes/Config.ts`) and of the orchestration operations of
`services/MariadbService.ts` (start, startAdmin, destroy, backup) over an
explicit world state that models the container runtime (containers,
volumes, db directories) and the plugin filesystem.

JavaScript string truthiness (`!s` is true for both `undefined` and `""`)
is modelled explicitly by `jsTruthy`/`jsOr`, since the source relies on it
(`username || user`, `rootPassword || password`, `if(!host && !storage)`,
`if(!name)` guards, ...).
-/

namespace Wocker

/-- JS truthiness of an optional string: `undefined` and `""` are falsy. -/
def jsTruthy : Option String → Bool
  | none => false
  | some s => !s.isEmpty

/-- JS `a || b` on optional strings: falls through on `undefined` or `""`. -/
def jsOr (a b : Option String) : Option String :=
  match a with
  | none => b
  | some s => if s.isEmpty then b else some s

/-- JS `a || d` where the fallback is a string literal. -/
def jsOrDefault (a : Option String) (d : String) : String :=
  match a with
  | none => d
  | some s => if s.isEmpty then d else s

/-- `ServiceStorageType` from `makes/Service.ts`:
`"filesystem" | "volume"`. -/
inductive ServiceStorageType where
  | filesystem
  | volume
deriving DecidableEq, Repr

/-- `EnvConfig` (free-form extra environment variables). -/
abbrev EnvConfig := List (String × String)

/-- `ServiceProps` from `makes/Service.ts`: the constructor / serialization
shape of one service.  `none` models an absent (or `undefined`) key. -/
structure ServiceProps where
  name : String
  host : Option String := none
  user : Option String := none
  username : Option String := none
  password : Option String := none
  passwordHash : Option String := none
  rootPassword : Option String := none
  storage : Option ServiceStorageType := none
  volume : Option String := none
  image : Option String := none
  imageName : Option String := none
  imageVersion : Option String := none
  env : Option EnvConfig := none
deriving DecidableEq, Repr

/-- The `Service` entity of `makes/Service.ts`.  The stored field backing
the mutable `volume` getter is `_volume`, kept under the source's name. -/
structure Service where
  name : String
  host : Option String := none
  username : Option String := none
  password : Option String := none
  passwordHash : Option String := none
  rootPassword : Option String := none
  storage : Option ServiceStorageType := none
  _volume : Option String := none
  imageName : String := "mariadb"
  imageVersion : String := "latest"
  env : Option EnvConfig := none
deriving DecidableEq, Repr

/-- The `Service` constructor (`makes/Service.ts`, lines 38-70):
normalizes `user`→`username` and `image`→`imageName`, defaults
`rootPassword` from `password` (unconditionally, via `rootPassword ||
password`), and defaults `storage` to `filesystem` when neither `host`
nor `storage` is supplied. -/
def Service.ofProps (p : ServiceProps) : Service where
  name := p.name
  host := p.host
  username := jsOr p.username p.user
  password := p.password
  passwordHash := p.passwordHash
  rootPassword := jsOr p.rootPassword p.password
  storage := if !(jsTruthy p.host) && p.storage.isNone then
      some ServiceStorageType.filesystem
    else
      p.storage
  _volume := p.volume
  imageName := match p.imageName with
    | some s => s
    | none => jsOrDefault p.image "mariadb"
  imageVersion := p.imageVersion.getD "latest"
  env := p.env

/-- `service.host` truthiness: the source's internal/external test is
always `if(service.host)` / `if(!service.host)`. -/
def Service.isExternal (s : Service) : Bool :=
  jsTruthy s.host

/-- `get defaultVolume()`: the deterministic derived volume name. -/
def Service.defaultVolume (s : Service) : String :=
  "wocker-mariadb-" ++ s.name

/-- `get containerName()`. -/
def Service.containerName (s : Service) : String :=
  "mariadb-" ++ s.name ++ ".ws"

/-- `get imageTag()`. -/
def Service.imageTag (s : Service) : String :=
  s.imageName ++ ":" ++ s.imageVersion

/-- The string returned by the `volume` getter (`makes/Service.ts`, lines
103-109): the stored `_volume` when truthy, otherwise the derived
default volume name. -/
def Service.volume (s : Service) : String :=
  if jsTruthy s._volume then s._volume.getD "" else s.defaultVolume

/-- The entity state after the `volume` getter has run: the getter caches
the returned name into the stored `_volume` field (`if(!this._volume)
this._volume = this.defaultVolume`). -/
def Service.volumeTouched (s : Service) : Service :=
  { s with _volume := some s.volume }

/-- `toObject()` (`makes/Service.ts`, lines 119-132).  Note the source
emits `volume: this._volume` (the raw stored field) and does NOT emit
`passwordHash`. -/
def Service.toObject (s : Service) : ServiceProps where
  name := s.name
  host := s.host
  username := s.username
  password := s.password
  rootPassword := s.rootPassword
  storage := s.storage
  volume := s._volume
  imageName := some s.imageName
  imageVersion := some s.imageVersion
  env := s.env

/-- `ConfigProps` from `makes/Config.ts`. -/
structure ConfigProps where
  adminHostname : Option String := none
  default : Option String := none
  services : Option (List ServiceProps) := none
deriving DecidableEq, Repr

/-- The Config store (`makes/Config.ts`): admin hostname, optional default
pointer and the ordered service collection. -/
structure Config where
  adminHostname : String := "dbadmin-mariadb.workspace"
  default : Option String := none
  services : List Service := []
deriving DecidableEq, Repr

/-- The `Config` constructor (`makes/Config.ts`, lines 16-28):
`adminHostname || "dbadmin-mariadb.workspace"`, and each stored props
record is rebuilt through the `Service` constructor. -/
def Config.ofProps (p : ConfigProps) : Config where
  adminHostname := jsOrDefault p.adminHostname "dbadmin-mariadb.workspace"
  default := p.default
  services := (p.services.getD []).map Service.ofProps

/-- `hasService(name)`. -/
def Config.hasService (cfg : Config) (name : String) : Bool :=
  (cfg.services.find? (fun s => s.name == name)).isSome

/-- The failure kinds surfaced by the embedded operations (§7 of the
spec's taxonomy, restricted to what the embedded code can raise). -/
inductive Err where
  | notFound (name : String)
  | noDefault
  | nameRequired
  | externalService
  | unsupportedFeature
  | protectedDefault
  | aborted
  | notRunning
  | interactiveCreate
deriving DecidableEq, Repr

/-- `getService(name)`: `NotFound` when absent. -/
def Config.getService (cfg : Config) (name : String) : Except Err Service :=
  match cfg.services.find? (fun s => s.name == name) with
  | some s => Except.ok s
  | none => Except.error (Err.notFound name)

/-- `hasDefaultService()`. -/
def Config.hasDefaultService (cfg : Config) : Bool :=
  if !(jsTruthy cfg.default) then false
  else cfg.hasService (cfg.default.getD "")

/-- `getDefaultService()`: `NoDefault` when the pointer is unset (falsy). -/
def Config.getDefaultService (cfg : Config) : Except Err Service :=
  if !(jsTruthy cfg.default) then Except.error Err.noDefault
  else cfg.getService (cfg.default.getD "")

/-- `getServiceOrDefault(name?)`. -/
def Config.getServiceOrDefault (cfg : Config) (name : Option String) :
    Except Err Service :=
  if !(jsTruthy name) then cfg.getDefaultService
  else cfg.getService (name.getD "")

/-- `setService(service)` (the part_004 revision, lines 74-91): replace
every stored service of the same name in place, push when absent, and
point `default` at the new service when `default` was unset (falsy). -/
def Config.setService (cfg : Config) (svc : Service) : Config :=
  let exists0 := cfg.services.any (fun s => s.name == svc.name)
  { cfg with
    services := if exists0 then
        cfg.services.map (fun s => if s.name == svc.name then svc else s)
      else
        cfg.services ++ [svc]
    default := if jsTruthy cfg.default then cfg.default else some svc.name }

/-- A `Partial<ServiceProps>` patch: every key optional, including `name`.
`none` models an absent key (a present key holding `undefined` behaves
identically through the `Service` constructor). -/
structure ServicePatch where
  name : Option String := none
  host : Option String := none
  user : Option String := none
  username : Option String := none
  password : Option String := none
  passwordHash : Option String := none
  rootPassword : Option String := none
  storage : Option ServiceStorageType := none
  volume : Option String := none
  image : Option String := none
  imageName : Option String := none
  imageVersion : Option String := none
  env : Option EnvConfig := none
deriving DecidableEq, Repr

/-- JS object spread `{...base, ...patch}` for service props. -/
def mergeProps (base : ServiceProps) (p : ServicePatch) : ServiceProps where
  name := p.name.getD base.name
  host := match p.host with | some v => some v | none => base.host
  user := match p.user with | some v => some v | none => base.user
  username := match p.username with | some v => some v | none => base.username
  password := match p.password with | some v => some v | none => base.password
  passwordHash :=
    match p.passwordHash with | some v => some v | none => base.passwordHash
  rootPassword :=
    match p.rootPassword with | some v => some v | none => base.rootPassword
  storage := match p.storage with | some v => some v | none => base.storage
  volume := match p.volume with | some v => some v | none => base.volume
  image := match p.image with | some v => some v | none => base.image
  imageName := match p.imageName with | some v => some v | none => base.imageName
  imageVersion :=
    match p.imageVersion with | some v => some v | none => base.imageVersion
  env := match p.env with | some v => some v | none => base.env

/-- Helper for `updateService`: replace the first service of the given
name by the merge-patched rebuild (the source `break`s after the first
match). -/
def updateFirst (name : String) (p : ServicePatch) :
    List Service → List Service
  | [] => []
  | s :: rest =>
    if s.name == name then
      Service.ofProps (mergeProps s.toObject p) :: rest
    else
      s :: updateFirst name p rest

/-- `updateService(name, partial)` (part_004 revision, lines 93-103):
`new Service({...services[i].toObject(), ...partial})` on the first
name match. -/
def Config.updateService (cfg : Config) (name : String) (p : ServicePatch) :
    Config :=
  { cfg with services := updateFirst name p cfg.services }

/-- `unsetService(name)` (part_004 revision, lines 105-113): filter the
service out and clear `default` when it pointed at the removed name. -/
def Config.unsetService (cfg : Config) (name : String) : Config :=
  { cfg with
    services := cfg.services.filter (fun s => s.name != name)
    default := if cfg.default = some name then none else cfg.default }

/-- `toJSON()` (`makes/Config.ts`, lines 78-86): serializes the full
document; the services key is omitted when the collection is empty. -/
def Config.toJSON (cfg : Config) : ConfigProps where
  adminHostname := some cfg.adminHostname
  default := cfg.default
  services := if cfg.services.length > 0 then
      some (cfg.services.map Service.toObject)
    else
      none

/-! ## World model: the container runtime and the plugin filesystem

The docker/filesystem collaborators are modelled as explicit state:
containers (name + running flag, list order = creation order), named
volumes, per-service database directories (`dbFs`), the plugin data
directories and files (`fs`), the runtime-capability flag
(`pluginConfigService.isVersionGTE("1.0.19")`) and the generated admin
front-end server list (the content written to `config.user.inc.php`,
modelled as the list of server entries). -/

/-- One docker container: its name and whether it is running. -/
structure Container where
  name : String
  running : Bool
deriving DecidableEq, Repr

/-- One `$cfg['Servers']` entry of the generated phpmyadmin config:
`host = service.host || service.containerName`, root credentials for
internal services, username/password for external ones. -/
structure ServerEntry where
  host : String
  user : Option String
  password : Option String
deriving DecidableEq, Repr

/-- `servers.map(...)` body of `startAdmin`. -/
def serverEntry (s : Wocker.Service) : ServerEntry where
  host := if jsTruthy s.host then s.host.getD "" else s.containerName
  user := if jsTruthy s.host then s.username else some "root"
  password := if jsTruthy s.host then s.password else s.rootPassword

/-- The external state the orchestrator acts on. -/
structure World where
  containers : List Container := []
  volumes : List String := []
  dbDirs : List String := []
  pluginDirs : List String := []
  files : List String := []
  adminServers : Option (List ServerEntry) := none
  versionGTE : Bool := true
deriving DecidableEq, Repr

/-- `dockerService.getContainer(name)`. -/
def World.getContainer (w : World) (n : String) : Option Container :=
  w.containers.find? (fun c => c.name == n)

/-- `dockerService.removeContainer(name)` (no-op when absent). -/
def World.removeContainer (w : World) (n : String) : World :=
  { w with containers := w.containers.filter (fun c => c.name != n) }

/-- `dockerService.createContainer(...)`: a fresh container is created,
not yet running. -/
def World.createContainer (w : World) (n : String) : World :=
  { w with containers := w.containers ++ [{ name := n, running := false }] }

/-- `container.start()`. -/
def World.startContainer (w : World) (n : String) : World :=
  { w with containers := w.containers.map (fun c =>
      if c.name == n then { c with running := true } else c) }

/-- Whether the named container exists and is running. -/
def World.isRunning (w : World) (n : String) : Bool :=
  match w.getContainer n with
  | some c => c.running
  | none => false

/-- `dockerService.hasVolume(name)`. -/
def World.hasVolume (w : World) (v : String) : Bool :=
  w.volumes.contains v

/-- `dockerService.createVolume(name)`. -/
def World.createVolume (w : World) (v : String) : World :=
  { w with volumes := w.volumes ++ [v] }

/-- `dockerService.rmVolume(name)`. -/
def World.rmVolume (w : World) (v : String) : World :=
  { w with volumes := w.volumes.filter (fun x => x != v) }

/-- `dbFs.exists(name)`. -/
def World.dbDirExists (w : World) (d : String) : Bool :=
  w.dbDirs.contains d

/-- `dbFs.mkdir(name, {recursive:true})`. -/
def World.mkDbDir (w : World) (d : String) : World :=
  { w with dbDirs := w.dbDirs ++ [d] }

/-- `dbFs.rm(name, {recursive:true, force:true})`: tolerates absence. -/
def World.rmDbDir (w : World) (d : String) : World :=
  { w with dbDirs := w.dbDirs.filter (fun x => x != d) }

/-- `fs.mkdir(path, {recursive:true})` on the plugin filesystem:
idempotent. -/
def World.mkdirP (w : World) (d : String) : World :=
  if w.pluginDirs.contains d then w
  else { w with pluginDirs := w.pluginDirs ++ [d] }

/-- `fs.createWriteStream(path)` + the completed copy: the file exists
afterwards. -/
def World.writeFile (w : World) (p : String) : World :=
  { w with files := w.files ++ [p] }

/-! ## MariadbService operations (part_008 / `services/MariadbService.ts`)

Control flow is embedded faithfully, threading the world through every
effect, so that an exception thrown midway (`Option Err` result `some _`)
still reports the mutations already performed — in the source the state
of docker and of the config store is mutated in place, so a later throw
does not undo earlier effects.  `pullImage` has no modelled effect.
Interactive prompting is out of scope (spec §1); prompt answers enter as
explicit parameters, and the interactive `create()` flow reachable from
`start()` when no name is given and no default exists is represented by
the `interactiveCreate` outcome. -/

namespace MariadbService

/-- `start(name?, restart?)` (part_008, lines 182-264): resolve the
service, reject external services, optionally remove the container for a
restart, provision storage and create the container when absent (volume
mode needs the `1.0.19` capability), then start it unless already
running. -/
def start (cfg : Config) (w : World) (name : Option String)
    (restart : Bool) : Option Err × World :=
  if !(jsTruthy name) && !cfg.hasDefaultService then
    (some Err.interactiveCreate, w)
  else
    match cfg.getServiceOrDefault name with
    | Except.error e => (some e, w)
    | Except.ok svc =>
      if svc.isExternal then (some Err.externalService, w)
      else
        let w := if restart then w.removeContainer svc.containerName else w
        match w.getContainer svc.containerName with
        | some c =>
          (none, if c.running then w else w.startContainer svc.containerName)
        | none =>
          match svc.storage with
          | some ServiceStorageType.volume =>
            if !w.versionGTE then (some Err.unsupportedFeature, w)
            else
              let w := if w.hasVolume svc.volume then w
                else w.createVolume svc.volume
              let w := w.createContainer svc.containerName
              (none, w.startContainer svc.containerName)
          | _ =>
            let w := if w.dbDirExists svc.name then w else w.mkDbDir svc.name
            let w := w.createContainer svc.containerName
            (none, w.startContainer svc.containerName)

/-- The admin container phase at the end of `startAdmin` (part_008, lines
331-370): create the `phpmyadmin` container when absent, inspect it and
start it when not running. -/
def startAdminContainer (cfg : Config) (w : World) : World :=
  let w2 := match w.getContainer cfg.adminHostname with
    | some _ => w
    | none => w.createContainer cfg.adminHostname
  if w2.isRunning cfg.adminHostname then w2
  else w2.startContainer cfg.adminHostname

/-- `startAdmin()` (part_008, lines 266-371): collect the internal
services that have a container, remove the admin container, stop early
when that set is empty, otherwise append every external service,
generate the server config, recreate the admin container and start it. -/
def startAdmin (cfg : Config) (w : World) : World :=
  let servers := cfg.services.filter (fun s =>
    !s.isExternal && (w.getContainer s.containerName).isSome)
  let w := w.removeContainer cfg.adminHostname
  if servers.isEmpty then w
  else
    let servers := servers ++ cfg.services.filter (fun s => s.isExternal)
    let w := { w with adminServers := some (servers.map serverEntry) }
    startAdminContainer cfg (((w.mkdirP "dump").mkdirP "save").mkdirP "upload")

/-- The storage-teardown switch inside `destroy` (part_008, lines
517-542): volume mode skips any volume whose name differs from the
derived default volume, checks the capability, and removes the default
volume when present; filesystem mode removes the scoped directory. -/
def destroyStorage (svc : Service) (w : World) : Option Err × World :=
  match svc.storage with
  | some ServiceStorageType.volume =>
    if svc.volume != svc.defaultVolume then (none, w)
    else if !w.versionGTE then (some Err.unsupportedFeature, w)
    else (none, if w.hasVolume svc.volume then w.rmVolume svc.volume else w)
  | _ => (none, w.rmDbDir svc.name)

/-- `destroy(name?, yes?, force?)` (part_008, lines 490-547).  `confirm`
is the answer the interactive confirmation would return when `yes` is
not set. -/
def destroy (cfg : Config) (w : World) (name : Option String)
    (yes force confirm : Bool) : Option Err × Config × World :=
  if !(jsTruthy name) then (some Err.nameRequired, cfg, w)
  else
    match cfg.getService (name.getD "") with
    | Except.error e => (some e, cfg, w)
    | Except.ok svc =>
      if cfg.default == some svc.name && !force then
        (some Err.protectedDefault, cfg, w)
      else if !yes && !confirm then (some Err.aborted, cfg, w)
      else if svc.isExternal then (none, cfg.unsetService (name.getD ""), w)
      else
        match destroyStorage svc (w.removeContainer svc.containerName) with
        | (some e, w2) => (some e, cfg, w2)
        | (none, w2) => (none, cfg.unsetService (name.getD ""), w2)

/-- A wall-clock instant, as far as the `"yyyy-MM-dd HH-mm"` format
pattern observes it. -/
structure DateTime where
  year : Nat
  month : Nat
  day : Nat
  hour : Nat
  minute : Nat
deriving DecidableEq, Repr

/-- Two-digit zero padding (date-fns `MM`/`dd`/`HH`/`mm` tokens). -/
def pad2 (n : Nat) : String :=
  if n < 10 then "0" ++ toString n else toString n

/-- Four-digit zero padding (date-fns `yyyy` token). -/
def pad4 (n : Nat) : String :=
  if n < 10 then "000" ++ toString n
  else if n < 100 then "00" ++ toString n
  else if n < 1000 then "0" ++ toString n
  else toString n

/-- The external `dateFormat(new Date(), "yyyy-MM-dd HH-mm")` call,
modelled from the date-fns format tokens. -/
def dateFormatYMDHM (d : DateTime) : String :=
  pad4 d.year ++ "-" ++ pad2 d.month ++ "-" ++ pad2 d.day ++ " " ++
    pad2 d.hour ++ "-" ++ pad2 d.minute

/-- The timestamp-based default offered by the filename prompt of
`backup`. -/
def backupDefaultFilename (now : DateTime) : String :=
  dateFormatYMDHM now

/-- `backup(name?, database?, filename?)` (part_008, lines 592-649),
with the two prompt answers as parameters: `dbAnswer` is the database
selection used when no database is supplied, and `fileAnswer` is the
text entered at the filename prompt (`none` = accept the offered
default, which is the formatted current clock).  `.sql` is appended to
the prompt result; a caller-supplied filename is used verbatim.  The
dump directory is created (recursively) before the file is written. -/
def backup (cfg : Config) (w : World) (name database filename : Option String)
    (now : DateTime) (dbAnswer : String) (fileAnswer : Option String) :
    Option Err × World :=
  match cfg.getServiceOrDefault name with
  | Except.error e => (some e, w)
  | Except.ok svc =>
    match w.getContainer svc.containerName with
    | none => (some Err.notRunning, w)
    | some _ =>
      let db := if jsTruthy database then database.getD "" else dbAnswer
      let fname := if jsTruthy filename then filename.getD ""
        else (fileAnswer.getD (backupDefaultFilename now)) ++ ".sql"
      let dir := "dump/" ++ svc.name ++ "/" ++ db
      let w := w.mkdirP dir
      let w := w.writeFile (dir ++ "/" ++ fname)
      (none, w)

end MariadbService

/-! ## Derived state observations used by the claims -/

/-- Number of containers carrying the given name (docker enforces
uniqueness; the count makes duplication expressible). -/
def World.countContainer (w : World) (n : String) : Nat :=
  w.containers.countP (fun c => c.name == n)

/-- Number of storage resources backing a service: occurrences of its
volume name in volume mode, of its scoped db directory otherwise. -/
def storageCount (svc : Service) (w : World) : Nat :=
  match svc.storage with
  | some ServiceStorageType.volume => w.volumes.count svc.volume
  | _ => w.dbDirs.count svc.name

/-- The referential invariant of the store: a set default pointer names a
present service. -/
def Config.defaultOK (cfg : Config) : Prop :=
  ∀ d, cfg.default = some d → cfg.hasService d = true

/-! ## List helper lemmas -/

theorem find?_eq_none_of_countP_zero {α : Type} {p : α → Bool} {l : List α}
    (h : l.countP p = 0) : l.find? p = none := by
  rw [List.countP_eq_zero] at h
  rw [List.find?_eq_none]
  exact h

theorem find?_append_of_left_none {α : Type} {p : α → Bool}
    {l₁ l₂ : List α} (h : l₁.find? p = none) :
    (l₁ ++ l₂).find? p = l₂.find? p := by
  rw [List.find?_append, h, Option.none_or]

/-- Names are unchanged by the run-flag update of `startContainer`. -/
theorem name_setRunning (m : String) (c : Container) :
    (if c.name == m then { c with running := true } else c).name = c.name := by
  by_cases h : c.name == m <;> simp [h]

theorem countP_name_map_setRunning (m n : String) (l : List Container) :
    (l.map (fun c => if c.name == m then { c with running := true } else c)).countP
        (fun c => c.name == n) =
      l.countP (fun c => c.name == n) := by
  induction l with
  | nil => rfl
  | cons c rest ih =>
    simp only [List.map_cons, List.countP_cons, ih, name_setRunning]

/-- Membership in the service-name list characterizes `hasService`. -/
theorem hasService_iff_mem_names (cfg : Config) (n : String) :
    cfg.hasService n = true ↔ n ∈ cfg.services.map (fun s => s.name) := by
  simp only [Config.hasService, Option.isSome_iff_exists, List.mem_map]
  constructor
  · rintro ⟨s, hs⟩
    have hp := List.find?_some hs
    have hm := List.mem_of_find?_eq_some hs
    exact ⟨s, hm, by simpa using hp⟩
  · rintro ⟨s, hm, hn⟩
    have : cfg.services.find? (fun s => s.name == n) ≠ none := by
      rw [Ne, List.find?_eq_none]
      push_neg
      exact ⟨s, hm, by simp [hn]⟩
    rcases Option.ne_none_iff_exists'.mp this with ⟨s', hs'⟩
    exact ⟨s', hs'⟩

/-- A successful `getService(name)` returns a service of that name. -/
theorem getService_ok_name {cfg : Config} {n : String} {svc : Service}
    (h : cfg.getService n = Except.ok svc) : svc.name = n := by
  unfold Config.getService at h
  cases hf : cfg.services.find? (fun s => s.name == n) with
  | none => rw [hf] at h; exact absurd h (by simp)
  | some s =>
    rw [hf] at h
    have := List.find?_some hf
    cases h
    simpa using this

/-- A successful `getService(name)` returns a member of the collection. -/
theorem getService_ok_mem {cfg : Config} {n : String} {svc : Service}
    (h : cfg.getService n = Except.ok svc) : svc ∈ cfg.services := by
  unfold Config.getService at h
  cases hf : cfg.services.find? (fun s => s.name == n) with
  | none => rw [hf] at h; exact absurd h (by simp)
  | some s =>
    rw [hf] at h
    cases h
    exact List.mem_of_find?_eq_some hf

/-! ## Claim C7 — rootPassword defaulting in the Service constructor -/

/-- Claim C7, counterexample: with a username given and `rootPassword`
absent, the constructor still defaults `rootPassword` from `password`
(`this.rootPassword = rootPassword || password` is unconditional), so
the claimed root-scenario-only defaulting is false. -/
theorem rootPassword_claim_counterexample :
    (Service.ofProps
        { name := "db", username := some "bob", password := some "pw" }).rootPassword
      = some "pw" ∧
    (Service.ofProps
        { name := "db", username := some "bob", password := some "pw" }).rootPassword
      ≠ none := by
  constructor <;> decide

/-- Claim C7, amended: the constructed rootPassword equals the supplied
password whenever the supplied rootPassword is absent (or empty, which
JS `||` treats the same), regardless of whether a username is given. -/
theorem rootPassword_defaults_from_password (p : ServiceProps)
    (h : p.rootPassword = none ∨ p.rootPassword = some "") :
    (Service.ofProps p).rootPassword = p.password := by
  rcases h with h | h <;>
    simp [Service.ofProps, jsOr, h, show "".isEmpty = true from rfl]

/-- Witness for the amended C7 at a concrete input with a username. -/
theorem rootPassword_defaults_from_password_witness :
    (Service.ofProps
        { name := "db", username := some "alice", password := some "s3cret" }).rootPassword
      = some "s3cret" :=
  rootPassword_defaults_from_password
    { name := "db", username := some "alice", password := some "s3cret" }
    (Or.inl rfl)

/-! ## Claim C10 — the volume getter mutates serialization output -/

/-- Claim C10: on a service constructed without an explicit volume name,
`toObject` emits no `volume` property — unless the `volume` getter has
been read, which caches the derived default name
`wocker-mariadb-<name>` into `_volume`, after which `toObject` emits it. -/
theorem volume_getter_changes_toObject (p : ServiceProps)
    (h : p.volume = none) :
    (Service.ofProps p).toObject.volume = none ∧
    ((Service.ofProps p).volumeTouched).toObject.volume
      = some ("wocker-mariadb-" ++ p.name) := by
  constructor
  · simp [Service.ofProps, Service.toObject, h]
  · simp [Service.ofProps, Service.volumeTouched, Service.toObject,
      Service.volume, Service.defaultVolume, jsTruthy, h]

/-- Witness for C10 at a concrete service. -/
theorem volume_getter_changes_toObject_witness :
    (Service.ofProps { name := "db" }).toObject.volume = none ∧
    ((Service.ofProps { name := "db" }).volumeTouched).toObject.volume
      = some "wocker-mariadb-db" :=
  volume_getter_changes_toObject { name := "db" } rfl

/-! ## Claim C8 — first service becomes default; NoDefault semantics -/

/-- Claim C8: adding a service to an empty store via `setService` makes
it the default and `getServiceOrDefault()` with no name resolves to it;
and the no-name lookup fails with `NoDefault` exactly when the default
pointer is unset (JS-falsy). -/
theorem first_service_becomes_default (cfg : Config) (svc : Service)
    (h0 : cfg.services = []) (hd : cfg.default = none) (hn : svc.name ≠ "") :
    ((cfg.setService svc).default = some svc.name ∧
      (cfg.setService svc).getServiceOrDefault none = Except.ok svc) ∧
    ∀ cfg2 : Config,
      (cfg2.getServiceOrDefault none = Except.error Err.noDefault ↔
        jsTruthy cfg2.default = false) := by
  refine ⟨⟨?_, ?_⟩, ?_⟩
  · simp [Config.setService, hd, jsTruthy]
  · simp [Config.setService, Config.getServiceOrDefault,
      Config.getDefaultService, Config.getService, h0, hd, jsTruthy,
      String.isEmpty_iff, hn]
  · intro cfg2
    have hnone : jsTruthy (none : Option String) = false := rfl
    cases htr : jsTruthy cfg2.default with
    | false =>
      simp [Config.getServiceOrDefault, Config.getDefaultService, hnone, htr]
    | true =>
      have hred : cfg2.getServiceOrDefault none
          = cfg2.getService (cfg2.default.getD "") := by
        simp [Config.getServiceOrDefault, Config.getDefaultService, hnone,
          htr]
      rw [hred]
      constructor
      · intro h
        exfalso
        unfold Config.getService at h
        cases hf : cfg2.services.find?
            (fun s => s.name == cfg2.default.getD "") with
        | none => rw [hf] at h; simp at h
        | some s => rw [hf] at h; simp at h
      · intro h
        exact absurd h (by simp)

/-- Witness for C8: the scenario of the spec, a first service named
`app` with volume storage. -/
theorem first_service_becomes_default_witness :
    (((Config.mk "dbadmin-mariadb.workspace" none []).setService
        (Service.ofProps
          { name := "app", storage := some ServiceStorageType.volume })).default
      = some "app" ∧
      ((Config.mk "dbadmin-mariadb.workspace" none []).setService
        (Service.ofProps
          { name := "app", storage := some ServiceStorageType.volume })).getServiceOrDefault
          none
        = Except.ok (Service.ofProps
            { name := "app", storage := some ServiceStorageType.volume })) ∧
    ∀ cfg2 : Config,
      (cfg2.getServiceOrDefault none = Except.error Err.noDefault ↔
        jsTruthy cfg2.default = false) :=
  first_service_becomes_default (Config.mk "dbadmin-mariadb.workspace" none [])
    (Service.ofProps
      { name := "app", storage := some ServiceStorageType.volume })
    rfl rfl (by decide)

/-! ## Claim C3 — the default pointer never dangles after one mutation -/

/-- Claim C3, counterexample: `updateService` merge-patches
`{...toObject(), ...patch}` through the `Service` constructor, so a
patch carrying a different `name` renames the stored service while the
default pointer keeps the old name — after this single mutation the
default is neither cleared nor referencing a present service. -/
theorem default_invariant_counterexample :
    ((Config.mk "dbadmin-mariadb.workspace" (some "app")
        [Service.ofProps { name := "app" }]).updateService "app"
        { name := some "b" }).default = some "app" ∧
    ((Config.mk "dbadmin-mariadb.workspace" (some "app")
        [Service.ofProps { name := "app" }]).updateService "app"
        { name := some "b" }).hasService "app" = false := by
  constructor <;> decide

theorem setService_names (cfg : Config) (svc : Service) :
    ((cfg.setService svc).services).map (fun s => s.name)
      = if cfg.services.any (fun s => s.name == svc.name)
        then cfg.services.map (fun s => s.name)
        else cfg.services.map (fun s => s.name) ++ [svc.name] := by
  unfold Config.setService
  by_cases he : cfg.services.any (fun s => s.name == svc.name) = true
  · simp only [he, if_true, List.map_map]
    apply List.map_congr_left
    intro s _
    by_cases h : s.name == svc.name
    · simp only [Function.comp_apply, h, if_true]
      exact ((beq_iff_eq).mp h).symm
    · have h2 : s.name ≠ svc.name := by simpa using h
      simp [Function.comp_apply, h2]
  · simp [he]

theorem setService_name_mem (cfg : Config) (svc : Service) :
    svc.name ∈ ((cfg.setService svc).services).map (fun s => s.name) := by
  rw [setService_names]
  by_cases he : cfg.services.any (fun s => s.name == svc.name) = true
  · simp only [he, if_true]
    rcases List.any_eq_true.mp he with ⟨s, hm, hs⟩
    exact List.mem_map.mpr ⟨s, hm, ((beq_iff_eq).mp hs)⟩
  · simp [he]

theorem updateFirst_names (name : String) (p : ServicePatch)
    (hp : p.name = none ∨ p.name = some name) (l : List Service) :
    (updateFirst name p l).map (fun s => s.name)
      = l.map (fun s => s.name) := by
  induction l with
  | nil => rfl
  | cons s rest ih =>
    unfold updateFirst
    by_cases h : s.name == name
    · simp only [h, if_true, List.map_cons, ih]
      have hs : s.name = name := (beq_iff_eq).mp h
      rcases hp with hp | hp <;>
        simp [Service.ofProps, mergeProps, Service.toObject, hp, hs]
    · simp [h, ih]

theorem unsetService_defaultOK (cfg : Config) (h : cfg.defaultOK)
    (name : String) : (cfg.unsetService name).defaultOK := by
  intro d hd
  unfold Config.unsetService at hd
  by_cases hc : cfg.default = some name
  · simp [hc] at hd
  · simp only [hc, if_false, if_neg hc] at hd
    have hold := h d hd
    have hdn : d ≠ name := fun he => hc (he ▸ hd)
    rw [hasService_iff_mem_names] at hold ⊢
    rcases List.mem_map.mp hold with ⟨s, hm, hn⟩
    refine List.mem_map.mpr ⟨s, List.mem_filter.mpr ⟨hm, ?_⟩, hn⟩
    have : s.name ≠ name := hn ▸ hdn
    simpa [bne_iff_ne] using this

theorem setService_defaultOK (cfg : Config) (h : cfg.defaultOK)
    (svc : Service) : (cfg.setService svc).defaultOK := by
  intro d hd
  rw [hasService_iff_mem_names]
  have hdef : (cfg.setService svc).default
      = if jsTruthy cfg.default then cfg.default else some svc.name := rfl
  rw [hdef] at hd
  by_cases ht : jsTruthy cfg.default = true
  · rw [if_pos ht] at hd
    have hold := h d hd
    rw [hasService_iff_mem_names] at hold
    rw [setService_names]
    by_cases he : cfg.services.any (fun s => s.name == svc.name) = true
    · simpa [he] using hold
    · simp only [he, if_false, if_neg he]
      exact List.mem_append_left _ hold
  · rw [if_neg ht] at hd
    cases hd
    exact setService_name_mem cfg svc

theorem updateService_defaultOK (cfg : Config) (h : cfg.defaultOK)
    (name : String) (p : ServicePatch)
    (hp : p.name = none ∨ p.name = some name) :
    (cfg.updateService name p).defaultOK := by
  intro d hd
  have hd2 : cfg.default = some d := hd
  have hold := h d hd2
  rw [hasService_iff_mem_names] at hold ⊢
  show d ∈ ((cfg.updateService name p).services).map (fun s => s.name)
  unfold Config.updateService
  rw [updateFirst_names name p hp]
  exact hold

theorem destroy_ok_config {cfg : Config} {w : World} {name : Option String}
    {yes force confirm : Bool} {cfg2 : Config} {w2 : World}
    (h : MariadbService.destroy cfg w name yes force confirm
      = (none, cfg2, w2)) :
    ∃ n, cfg2 = cfg.unsetService n := by
  unfold MariadbService.destroy at h
  by_cases h1 : (!(jsTruthy name)) = true
  · rw [if_pos h1] at h
    exact absurd h (by simp)
  · rw [if_neg h1] at h
    cases hg : cfg.getService (name.getD "") with
    | error e =>
      rw [hg] at h
      exact absurd h (by simp)
    | ok svc =>
      rw [hg] at h
      dsimp only at h
      by_cases h2 : (cfg.default == some svc.name && !force) = true
      · rw [if_pos h2] at h
        exact absurd h (by simp)
      · rw [if_neg h2] at h
        by_cases h3 : (!yes && !confirm) = true
        · rw [if_pos h3] at h
          exact absurd h (by simp)
        · rw [if_neg h3] at h
          by_cases h4 : svc.isExternal = true
          · rw [if_pos h4] at h
            simp only [Prod.mk.injEq] at h
            exact ⟨name.getD "", h.2.1.symm⟩
          · rw [if_neg h4] at h
            rcases hds : MariadbService.destroyStorage svc
                (w.removeContainer svc.containerName) with ⟨eo, w3⟩
            rw [hds] at h
            cases eo with
            | some e2 =>
              dsimp only at h
              exact absurd h (by simp)
            | none =>
              dsimp only at h
              simp only [Prod.mk.injEq] at h
              exact ⟨name.getD "", h.2.1.symm⟩

/-- Claim C3, amended: starting from a store whose default references a
present service, the invariant is preserved by `setService`,
`unsetService`, a successful `destroy`, and by `updateService` whenever
the patch does not rename the service (its `name` key absent or equal to
the patched name); a renaming `updateService` patch can leave the
default dangling. -/
theorem default_invariant_preserved (cfg : Config) (h : cfg.defaultOK) :
    (∀ svc, (cfg.setService svc).defaultOK) ∧
    (∀ name p, (p.name = none ∨ p.name = some name) →
      (cfg.updateService name p).defaultOK) ∧
    (∀ name, (cfg.unsetService name).defaultOK) ∧
    (∀ w name yes force confirm cfg2 w2,
      MariadbService.destroy cfg w name yes force confirm
        = (none, cfg2, w2) → cfg2.defaultOK) := by
  refine ⟨fun svc => setService_defaultOK cfg h svc,
    fun name p hp => updateService_defaultOK cfg h name p hp,
    fun name => unsetService_defaultOK cfg h name,
    fun w name yes force confirm cfg2 w2 hd => ?_⟩
  rcases destroy_ok_config hd with ⟨n, rfl⟩
  exact unsetService_defaultOK cfg h n

/-- Witness for the amended C3: removing the only (default) service via
`unsetService` leaves a store satisfying the invariant (the pointer is
cleared). -/
theorem default_invariant_preserved_witness :
    ((Config.mk "dbadmin-mariadb.workspace" (some "app")
      [Service.ofProps { name := "app" }]).unsetService "app").defaultOK :=
  (default_invariant_preserved
    (Config.mk "dbadmin-mariadb.workspace" (some "app")
      [Service.ofProps { name := "app" }])
    (by intro d hd; cases hd; decide)).2.2.1 "app"


/-! ## Claim C4 — persistence round-trip of the Config store -/

/-- `toObject` omits `passwordHash`, so the rebuilt service differs from
the original exactly there (under the non-degeneracy conditions the
`Service` constructor itself establishes). -/
theorem service_roundtrip (s : Service)
    (hu : s.username ≠ some "") (hr : s.rootPassword ≠ some "")
    (hrp : s.rootPassword = none → s.password = none)
    (hst : s.storage = none → s.isExternal = true) :
    Service.ofProps s.toObject = { s with passwordHash := none } := by
  have hU : jsOr s.username none = s.username := by
    cases hu2 : s.username with
    | none => rfl
    | some u =>
      have : u ≠ "" := fun he => hu (by rw [hu2, he])
      simp [jsOr, String.isEmpty_iff, this]
  have hR : jsOr s.rootPassword s.password = s.rootPassword := by
    cases hr2 : s.rootPassword with
    | none => simp [jsOr, hrp hr2]
    | some v =>
      have : v ≠ "" := fun he => hr (by rw [hr2, he])
      simp [jsOr, String.isEmpty_iff, this]
  have hS : (if !(jsTruthy s.host) && (s.storage).isNone then
        some ServiceStorageType.filesystem
      else s.storage) = s.storage := by
    cases hst2 : s.storage with
    | none =>
      have h2 := hst hst2
      unfold Service.isExternal at h2
      simp [h2]
    | some v => simp
  simp [Service.ofProps, Service.toObject, hU, hR, hS]
  intro h1 h2
  exact absurd (hst h2) (by simp [Service.isExternal, h1])

/-- Claim C4, amended: serializing with `toJSON` and reconstructing
preserves the default pointer, the service names and every listed field
except `passwordHash`, which serialization drops (every reconstructed
service carries `passwordHash = none`); stated for stores whose services
have no empty-string `username`/`rootPassword`, have a password only
alongside a root password, and have a storage mode whenever internal —
the conditions the constructor itself establishes on non-degenerate
input. -/
theorem config_roundtrip_modulo_passwordHash (cfg : Config)
    (h : ∀ s ∈ cfg.services, s.username ≠ some "" ∧ s.rootPassword ≠ some ""
      ∧ (s.rootPassword = none → s.password = none)
      ∧ (s.storage = none → s.isExternal = true)) :
    (Config.ofProps cfg.toJSON).default = cfg.default ∧
    (Config.ofProps cfg.toJSON).services
      = cfg.services.map (fun s => { s with passwordHash := none }) := by
  constructor
  · rfl
  · show ((cfg.toJSON.services).getD []).map Service.ofProps = _
    unfold Config.toJSON
    by_cases hl : cfg.services.length > 0
    · simp only [hl, if_true]
      rw [Option.getD_some, List.map_map]
      apply List.map_congr_left
      intro s hm
      rcases h s hm with ⟨h1, h2, h3, h4⟩
      exact service_roundtrip s h1 h2 h3 h4
    · have h0 : cfg.services = [] := by
        cases hc : cfg.services with
        | nil => rfl
        | cons a l => rw [hc] at hl; simp at hl
      simp [h0]

/-- Claim C4, counterexample: a store whose single service carries a
`passwordHash` round-trips to one whose service has none — the
credential fields are not all preserved. -/
theorem config_roundtrip_counterexample :
    ((Config.ofProps (Config.mk "dbadmin-mariadb.workspace" (some "app")
        [Service.ofProps { name := "app", username := some "u", password := some "p", passwordHash := some "h" }]).toJSON).services).map
        (fun s => s.passwordHash) = [none] ∧
    ((Config.mk "dbadmin-mariadb.workspace" (some "app")
        [Service.ofProps { name := "app", username := some "u", password := some "p", passwordHash := some "h" }]).services).map
        (fun s => s.passwordHash) = [some "h"] := by
  constructor <;> decide

/-- Witness for the amended C4 at a concrete one-service store. -/
theorem config_roundtrip_modulo_passwordHash_witness :
    (Config.ofProps (Config.mk "dbadmin-mariadb.workspace" (some "app")
        [Service.ofProps { name := "app", username := some "u", password := some "p", rootPassword := some "r", storage := some ServiceStorageType.volume, volume := some "vol1" }]).toJSON).default
      = some "app" ∧
    (Config.ofProps (Config.mk "dbadmin-mariadb.workspace" (some "app")
        [Service.ofProps { name := "app", username := some "u", password := some "p", rootPassword := some "r", storage := some ServiceStorageType.volume, volume := some "vol1" }]).toJSON).services
      = ((Config.mk "dbadmin-mariadb.workspace" (some "app")
        [Service.ofProps { name := "app", username := some "u", password := some "p", rootPassword := some "r", storage := some ServiceStorageType.volume, volume := some "vol1" }]).services).map
        (fun s => { s with passwordHash := none }) :=
  config_roundtrip_modulo_passwordHash
    (Config.mk "dbadmin-mariadb.workspace" (some "app")
      [Service.ofProps { name := "app", username := some "u", password := some "p", rootPassword := some "r", storage := some ServiceStorageType.volume, volume := some "vol1" }])
    (by decide)


/-! ## Claim C6 — destroying the default without force fails cleanly -/

/-- Claim C6: `destroy` on the current default with `force` unset throws
`ProtectedDefault` before any confirmation, container, volume, directory
or store mutation — config and world come back exactly as passed. -/
theorem destroy_default_protected (cfg : Config) (w : World) (n : String)
    (svc : Service) (yes confirm : Bool)
    (hn : n ≠ "") (hs : cfg.getService n = Except.ok svc)
    (hd : cfg.default = some n) :
    MariadbService.destroy cfg w (some n) yes false confirm
      = (some Err.protectedDefault, cfg, w) := by
  have hm : svc.name = n := getService_ok_name hs
  have hie : n.isEmpty = false := by
    rw [Bool.eq_false_iff]
    intro hem
    exact hn ((String.isEmpty_iff n).mp hem)
  have h1 : (!(jsTruthy (some n))) = false := by
    simp [jsTruthy, hie]
  unfold MariadbService.destroy
  rw [h1]
  simp only [Bool.false_eq_true, if_false, Option.getD_some]
  rw [hs]
  dsimp only
  have h2 : (cfg.default == some svc.name && !false) = true := by
    simp [hm, hd]
  rw [h2]
  simp

/-- Witness for C6: destroying the default service `app` without force. -/
theorem destroy_default_protected_witness :
    MariadbService.destroy
      (Config.mk "dbadmin-mariadb.workspace" (some "app")
        [Service.ofProps { name := "app" }])
      (World.mk [] [] [] [] [] none true) (some "app") true false true
    = (some Err.protectedDefault,
        Config.mk "dbadmin-mariadb.workspace" (some "app")
          [Service.ofProps { name := "app" }],
        World.mk [] [] [] [] [] none true) :=
  destroy_default_protected
    (Config.mk "dbadmin-mariadb.workspace" (some "app")
      [Service.ofProps { name := "app" }])
    (World.mk [] [] [] [] [] none true) "app"
    (Service.ofProps { name := "app" }) true true
    (by decide) rfl rfl

/-! ## Claim C2 — destroy never removes a custom-named volume -/

/-- Any volume removed by the storage-teardown switch is the derived
default volume of the destroyed service. -/
theorem destroyStorage_volumes_sub (svc : Service) (w : World) (x : String)
    (hx : x ∈ w.volumes)
    (hnx : x ∉ ((MariadbService.destroyStorage svc w).2).volumes) :
    x = svc.defaultVolume := by
  unfold MariadbService.destroyStorage at hnx
  cases hst : svc.storage with
  | none =>
    rw [hst] at hnx
    exact absurd hx hnx
  | some v =>
    rw [hst] at hnx
    cases v with
    | filesystem => exact absurd hx hnx
    | volume =>
      dsimp only at hnx
      by_cases hb : (svc.volume != svc.defaultVolume) = true
      · rw [if_pos hb] at hnx
        exact absurd hx hnx
      · rw [if_neg hb] at hnx
        have heq : svc.volume = svc.defaultVolume := by
          simpa using hb
        by_cases hv : (!w.versionGTE) = true
        · rw [if_pos hv] at hnx
          exact absurd hx hnx
        · rw [if_neg hv] at hnx
          dsimp only at hnx
          by_cases hh : w.hasVolume svc.volume = true
          · rw [if_pos hh] at hnx
            unfold World.rmVolume at hnx
            simp only [List.mem_filter, not_and] at hnx
            have := hnx hx
            have hxe : x = svc.volume := by
              by_contra hne
              exact absurd (by simpa [bne_iff_ne] using hne) this
            exact hxe.trans heq
          · rw [if_neg hh] at hnx
            exact absurd hx hnx

/-- Lifting of the storage-teardown frame fact through `destroy`. -/
theorem destroy_volumes_frame (cfg : Config) (w : World) (nm : Option String)
    (y f c : Bool) (x : String) (hx : x ∈ w.volumes)
    (hnx : x ∉ ((MariadbService.destroy cfg w nm y f c).2.2).volumes) :
    ∃ svc2, cfg.getService (nm.getD "") = Except.ok svc2 ∧
      x = svc2.defaultVolume := by
  unfold MariadbService.destroy at hnx
  by_cases h1 : (!(jsTruthy nm)) = true
  · rw [if_pos h1] at hnx
    exact absurd hx hnx
  · rw [if_neg h1] at hnx
    cases hg : cfg.getService (nm.getD "") with
    | error e =>
      rw [hg] at hnx
      exact absurd hx hnx
    | ok svc =>
      rw [hg] at hnx
      dsimp only at hnx
      by_cases h2 : (cfg.default == some svc.name && !f) = true
      · rw [if_pos h2] at hnx
        exact absurd hx hnx
      · rw [if_neg h2] at hnx
        by_cases h3 : (!y && !c) = true
        · rw [if_pos h3] at hnx
          exact absurd hx hnx
        · rw [if_neg h3] at hnx
          by_cases h4 : svc.isExternal = true
          · rw [if_pos h4] at hnx
            exact absurd hx hnx
          · rw [if_neg h4] at hnx
            rcases hds : MariadbService.destroyStorage svc
                (w.removeContainer svc.containerName) with ⟨eo, w3⟩
            rw [hds] at hnx
            have hx2 : x ∈ (w.removeContainer svc.containerName).volumes := hx
            have hnx2 : x ∉ ((MariadbService.destroyStorage svc
                (w.removeContainer svc.containerName)).2).volumes := by
              rw [hds]
              cases eo with
              | some e2 => exact hnx
              | none => exact hnx
            exact ⟨svc, rfl, destroyStorage_volumes_sub svc
              (w.removeContainer svc.containerName) x hx2 hnx2⟩

/-- Claim C2: destroying an internal volume-mode service whose stored
volume name differs from the deterministic default removes the container
and unregisters the service but leaves the volume list untouched; and in
general the only volume any `destroy` call ever removes is the derived
default volume of the service it destroyed. -/
theorem destroy_preserves_custom_volume
    (cfg : Config) (w : World) (n : String) (svc : Service)
    (yes force confirm : Bool)
    (hn : n ≠ "") (hs : cfg.getService n = Except.ok svc)
    (hint : svc.isExternal = false)
    (hstor : svc.storage = some ServiceStorageType.volume)
    (hcustom : svc.volume ≠ svc.defaultVolume)
    (hforce : cfg.default = some n → force = true)
    (hyes : yes = true ∨ confirm = true) :
    (MariadbService.destroy cfg w (some n) yes force confirm
      = (none, cfg.unsetService n, w.removeContainer svc.containerName) ∧
    (w.removeContainer svc.containerName).volumes = w.volumes) ∧
    (∀ (cfg2 : Config) (w2 : World) (nm : Option String) (y f c : Bool)
      (x : String), x ∈ w2.volumes →
      x ∉ ((MariadbService.destroy cfg2 w2 nm y f c).2.2).volumes →
      ∃ svc2, cfg2.getService (nm.getD "") = Except.ok svc2 ∧
        x = svc2.defaultVolume) := by
  refine ⟨⟨?_, rfl⟩,
    fun cfg2 w2 nm y f c x hx hnx =>
      destroy_volumes_frame cfg2 w2 nm y f c x hx hnx⟩
  have hm : svc.name = n := getService_ok_name hs
  have hie : n.isEmpty = false := by
    rw [Bool.eq_false_iff]
    intro hem
    exact hn ((String.isEmpty_iff n).mp hem)
  have h1 : (!(jsTruthy (some n))) = false := by
    simp [jsTruthy, hie]
  unfold MariadbService.destroy
  rw [h1]
  simp only [Bool.false_eq_true, if_false, Option.getD_some]
  rw [hs]
  dsimp only
  have h2 : (cfg.default == some svc.name && !force) = false := by
    by_cases hdef : cfg.default = some n
    · simp [hforce hdef]
    · have : cfg.default ≠ some svc.name := by rw [hm]; exact hdef
      simp [this]
  rw [h2]
  simp only [Bool.false_eq_true, if_false]
  have h3 : (!yes && !confirm) = false := by
    rcases hyes with h | h <;> simp [h]
  rw [h3]
  simp only [Bool.false_eq_true, if_false, hint]
  have hds : MariadbService.destroyStorage svc
      (w.removeContainer svc.containerName)
      = (none, w.removeContainer svc.containerName) := by
    unfold MariadbService.destroyStorage
    rw [hstor]
    dsimp only
    have : (svc.volume != svc.defaultVolume) = true := by
      simpa [bne_iff_ne] using hcustom
    rw [this]
    simp
  rw [hds]


/-- Witness for C2 at a concrete volume-mode service with the custom
volume name `customvol`. -/
theorem destroy_preserves_custom_volume_witness :
    MariadbService.destroy
      (Config.mk "dbadmin-mariadb.workspace" (some "other")
        [Service.ofProps
          { name := "db", username := some "u", password := some "p", storage := some ServiceStorageType.volume, volume := some "customvol" },
         Service.ofProps { name := "other" }])
      (World.mk [Container.mk "mariadb-db.ws" true] ["customvol"] [] [] [] none true)
      (some "db") true false true
    = (none,
        (Config.mk "dbadmin-mariadb.workspace" (some "other")
          [Service.ofProps
            { name := "db", username := some "u", password := some "p", storage := some ServiceStorageType.volume, volume := some "customvol" },
           Service.ofProps { name := "other" }]).unsetService "db",
        (World.mk [Container.mk "mariadb-db.ws" true] ["customvol"] [] [] [] none true).removeContainer
          "mariadb-db.ws") ∧
    ((World.mk [Container.mk "mariadb-db.ws" true] ["customvol"] [] [] [] none true).removeContainer
        "mariadb-db.ws").volumes
      = (World.mk [Container.mk "mariadb-db.ws" true] ["customvol"] [] [] [] none true).volumes :=
  (destroy_preserves_custom_volume
    (Config.mk "dbadmin-mariadb.workspace" (some "other")
      [Service.ofProps
        { name := "db", username := some "u", password := some "p", storage := some ServiceStorageType.volume, volume := some "customvol" },
       Service.ofProps { name := "other" }])
    (World.mk [Container.mk "mariadb-db.ws" true] ["customvol"] [] [] [] none true)
    "db"
    (Service.ofProps
      { name := "db", username := some "u", password := some "p", storage := some ServiceStorageType.volume, volume := some "customvol" })
    true false true
    (by decide) rfl rfl rfl (by decide)
    (fun h => absurd h (by decide)) (Or.inl rfl)).1


/-! ## Claim C1 — ensure-started is idempotent -/

/-- State facts after `createContainer` then `container.start()` on a
world with no container of that name. -/
theorem afterCreate_facts (wb : World) (c : String)
    (hb : wb.countContainer c = 0) :
    (((wb.createContainer c).startContainer c).getContainer c
        = some (Container.mk c true)) ∧
    ((wb.createContainer c).startContainer c).countContainer c = 1 ∧
    ((wb.createContainer c).startContainer c).isRunning c = true ∧
    ((wb.createContainer c).startContainer c).volumes = wb.volumes ∧
    ((wb.createContainer c).startContainer c).dbDirs = wb.dbDirs := by
  have hfind : wb.containers.find? (fun x => x.name == c) = none :=
    find?_eq_none_of_countP_zero hb
  have hmap : (wb.containers.map (fun x =>
      if x.name == c then { x with running := true } else x)).find?
        (fun x => x.name == c) = none := by
    rw [List.find?_eq_none]
    intro x hx
    rcases List.mem_map.mp hx with ⟨y, hy, hxy⟩
    have hyname : y.name ≠ c := by
      have := (List.find?_eq_none.mp hfind) y hy
      simpa using this
    have hxn : x.name = y.name := by
      rw [← hxy]; exact name_setRunning c y
    simp [hxn, hyname]
  have hcont : ((wb.createContainer c).startContainer c).containers
      = wb.containers.map (fun x =>
          if x.name == c then { x with running := true } else x)
        ++ [Container.mk c true] := by
    unfold World.createContainer World.startContainer
    simp
  refine ⟨?_, ?_, ?_, rfl, rfl⟩
  · unfold World.getContainer
    rw [hcont, find?_append_of_left_none hmap]
    simp
  · unfold World.countContainer
    rw [hcont, List.countP_append, countP_name_map_setRunning]
    have hb2 : List.countP (fun x => x.name == c) wb.containers = 0 := hb
    rw [hb2]
    simp
  · unfold World.isRunning World.getContainer
    rw [hcont, find?_append_of_left_none hmap]
    simp

/-- `start` with `restart=false` is a no-op when the container exists and
runs. -/
theorem start_already_running (cfg : Config) (w : World) (n : String)
    (svc : Service) (c : Container)
    (hn : n ≠ "") (hsvc : cfg.getService n = Except.ok svc)
    (hx : svc.isExternal = false)
    (hfound : w.getContainer svc.containerName = some c)
    (hr : c.running = true) :
    MariadbService.start cfg w (some n) false = (none, w) := by
  have hie : n.isEmpty = false := by
    rw [Bool.eq_false_iff]
    intro hem
    exact hn ((String.isEmpty_iff n).mp hem)
  have hg1 : (!(jsTruthy (some n)) && !cfg.hasDefaultService) = false := by
    simp [jsTruthy, hie]
  have hg2 : cfg.getServiceOrDefault (some n) = Except.ok svc := by
    unfold Config.getServiceOrDefault
    simp [jsTruthy, hie, hsvc]
  unfold MariadbService.start
  rw [hg1]
  simp only [Bool.false_eq_true, if_false]
  rw [hg2]
  dsimp only
  rw [hx]
  simp only [Bool.false_eq_true, if_false]
  rw [hfound]
  dsimp only
  rw [hr]
  simp

/-- Claim C1: for an internal service, starting from a world with no
container and no storage resource for it, a successful `start` leaves
exactly one container and one storage resource (directory or volume),
the container running, and a second `start` with `restart=false` is a
no-op returning the very same world. -/
theorem start_twice_idempotent (cfg : Config) (w : World) (n : String)
    (svc : Service) (w1 : World)
    (hn : n ≠ "")
    (hsvc : cfg.getService n = Except.ok svc)
    (hx : svc.isExternal = false)
    (hc : w.countContainer svc.containerName = 0)
    (hs : storageCount svc w = 0)
    (h1 : MariadbService.start cfg w (some n) false = (none, w1)) :
    MariadbService.start cfg w1 (some n) false = (none, w1) ∧
    w1.countContainer svc.containerName = 1 ∧
    storageCount svc w1 = 1 ∧
    w1.isRunning svc.containerName = true := by
  have hie : n.isEmpty = false := by
    rw [Bool.eq_false_iff]
    intro hem
    exact hn ((String.isEmpty_iff n).mp hem)
  have hg1 : (!(jsTruthy (some n)) && !cfg.hasDefaultService) = false := by
    simp [jsTruthy, hie]
  have hg2 : cfg.getServiceOrDefault (some n) = Except.ok svc := by
    unfold Config.getServiceOrDefault
    simp [jsTruthy, hie, hsvc]
  have hnone : w.getContainer svc.containerName = none :=
    find?_eq_none_of_countP_zero hc
  unfold MariadbService.start at h1
  rw [hg1] at h1
  simp only [Bool.false_eq_true, if_false] at h1
  rw [hg2] at h1
  dsimp only at h1
  rw [hx] at h1
  simp only [Bool.false_eq_true, if_false, if_neg] at h1
  rw [hnone] at h1
  dsimp only at h1
  cases hst : svc.storage with
  | some v =>
    cases v with
    | volume =>
      rw [hst] at h1
      dsimp only at h1
      have hsv : w.volumes.count svc.volume = 0 := by
        unfold storageCount at hs
        rw [hst] at hs
        exact hs
      by_cases hv : (!w.versionGTE) = true
      · rw [if_pos hv] at h1
        exact absurd h1 (by simp)
      · rw [if_neg hv] at h1
        have hhv : w.hasVolume svc.volume = false := by
          unfold World.hasVolume
          rw [Bool.eq_false_iff]
          intro hc2
          exact (List.count_eq_zero.mp hsv)
            (by simpa [List.elem_iff] using hc2)
        rw [hhv] at h1
        simp only [Bool.false_eq_true, if_false] at h1
        have hw1 : w1 = ((w.createVolume svc.volume).createContainer
            svc.containerName).startContainer svc.containerName := by
          have := h1
          simp only [Prod.mk.injEq] at this
          exact this.2.symm
        have hb : (w.createVolume svc.volume).countContainer
            svc.containerName = 0 := hc
        have hfacts := afterCreate_facts (w.createVolume svc.volume)
          svc.containerName hb
        refine ⟨?_, ?_, ?_, ?_⟩
        · exact start_already_running cfg w1 n svc (Container.mk
            svc.containerName true) hn hsvc hx
            (by rw [hw1]; exact hfacts.1) rfl
        · rw [hw1]; exact hfacts.2.1
        · unfold storageCount
          rw [hst, hw1]
          rw [hfacts.2.2.2.1]
          show ((w.volumes ++ [svc.volume]).count svc.volume) = 1
          rw [List.count_append, hsv]
          simp
        · rw [hw1]; exact hfacts.2.2.1
    | filesystem =>
      rw [hst] at h1
      dsimp only at h1
      have hsd : w.dbDirs.count svc.name = 0 := by
        unfold storageCount at hs
        rw [hst] at hs
        exact hs
      have hdd : w.dbDirExists svc.name = false := by
        unfold World.dbDirExists
        rw [Bool.eq_false_iff]
        intro hc2
        exact (List.count_eq_zero.mp hsd)
          (by simpa [List.elem_iff] using hc2)
      rw [hdd] at h1
      simp only [Bool.false_eq_true, if_false] at h1
      have hw1 : w1 = ((w.mkDbDir svc.name).createContainer
          svc.containerName).startContainer svc.containerName := by
        simp only [Prod.mk.injEq] at h1
        exact h1.2.symm
      have hfacts := afterCreate_facts (w.mkDbDir svc.name)
        svc.containerName hc
      refine ⟨?_, ?_, ?_, ?_⟩
      · exact start_already_running cfg w1 n svc (Container.mk
          svc.containerName true) hn hsvc hx
          (by rw [hw1]; exact hfacts.1) rfl
      · rw [hw1]; exact hfacts.2.1
      · unfold storageCount
        rw [hst, hw1]
        rw [hfacts.2.2.2.2]
        show ((w.dbDirs ++ [svc.name]).count svc.name) = 1
        rw [List.count_append, hsd]
        simp
      · rw [hw1]; exact hfacts.2.2.1
  | none =>
    rw [hst] at h1
    dsimp only at h1
    have hsd : w.dbDirs.count svc.name = 0 := by
      unfold storageCount at hs
      rw [hst] at hs
      exact hs
    have hdd : w.dbDirExists svc.name = false := by
      unfold World.dbDirExists
      rw [Bool.eq_false_iff]
      intro hc2
      exact (List.count_eq_zero.mp hsd)
        (by simpa [List.elem_iff] using hc2)
    rw [hdd] at h1
    simp only [Bool.false_eq_true, if_false] at h1
    have hw1 : w1 = ((w.mkDbDir svc.name).createContainer
        svc.containerName).startContainer svc.containerName := by
      simp only [Prod.mk.injEq] at h1
      exact h1.2.symm
    have hfacts := afterCreate_facts (w.mkDbDir svc.name)
      svc.containerName hc
    refine ⟨?_, ?_, ?_, ?_⟩
    · exact start_already_running cfg w1 n svc (Container.mk
        svc.containerName true) hn hsvc hx
        (by rw [hw1]; exact hfacts.1) rfl
    · rw [hw1]; exact hfacts.2.1
    · unfold storageCount
      rw [hst, hw1]
      rw [hfacts.2.2.2.2]
      show ((w.dbDirs ++ [svc.name]).count svc.name) = 1
      rw [List.count_append, hsd]
      simp
    · rw [hw1]; exact hfacts.2.2.1


/-! ## Claim C5 — admin aggregator reachability rule -/

/-- `mkdir` on the plugin filesystem leaves containers unchanged. -/
theorem mkdirP_containers (w : World) (d : String) :
    (w.mkdirP d).containers = w.containers := by
  unfold World.mkdirP
  split <;> rfl

/-- `mkdir` on the plugin filesystem leaves the generated admin config
unchanged. -/
theorem mkdirP_adminServers (w : World) (d : String) :
    (w.mkdirP d).adminServers = w.adminServers := by
  unfold World.mkdirP
  split <;> rfl

/-- After `mkdir -p`, the directory exists. -/
theorem mem_mkdirP (w : World) (d : String) :
    d ∈ (w.mkdirP d).pluginDirs := by
  unfold World.mkdirP
  by_cases h : w.pluginDirs.contains d = true
  · rw [if_pos h]
    exact (List.elem_iff).mp h
  · rw [if_neg h]
    exact List.mem_append_right _ (by simp)

/-- After removal by name, no container of that name is counted. -/
theorem countP_name_filter_ne (a : String) (l : List Container) :
    (l.filter (fun c => c.name != a)).countP (fun c => c.name == a) = 0 := by
  rw [List.countP_eq_zero]
  intro x hx
  have := (List.mem_filter.mp hx).2
  simpa [bne_iff_ne] using this

/-- The admin container phase on a world without the admin container:
create it, then start it. -/
theorem startAdminContainer_fresh (cfg : Config) (wb : World)
    (h : wb.countContainer cfg.adminHostname = 0) :
    MariadbService.startAdminContainer cfg wb
      = (wb.createContainer cfg.adminHostname).startContainer
          cfg.adminHostname := by
  have hnone : wb.getContainer cfg.adminHostname = none :=
    find?_eq_none_of_countP_zero h
  have hnotrun : (wb.createContainer cfg.adminHostname).isRunning
      cfg.adminHostname = false := by
    unfold World.isRunning World.getContainer World.createContainer
    rw [find?_append_of_left_none (find?_eq_none_of_countP_zero h)]
    simp
  unfold MariadbService.startAdminContainer
  rw [hnone]
  dsimp only
  rw [hnotrun]
  simp

/-- The config-generation steps of `startAdmin` leave a world with no
admin container. -/
theorem prep_countContainer (w : World) (srv : Option (List ServerEntry))
    (a : String) :
    ((((({ w.removeContainer a with adminServers := srv } : World)).mkdirP
        "dump").mkdirP "save").mkdirP "upload").countContainer a = 0 := by
  unfold World.countContainer
  rw [mkdirP_containers, mkdirP_containers, mkdirP_containers]
  exact countP_name_filter_ne a w.containers

/-- Claim C5, amended: `startAdmin` declines (removing the admin
container and doing nothing else) exactly when no internal service has a
runtime container — external services alone do not prevent the early
stop; when at least one internal service has a container, the generated
configuration lists the reachable internal services followed by all
external services, and the admin container ends up running. -/
theorem startAdmin_reachability (cfg : Config) (w : World) :
    (cfg.services.filter (fun s =>
        !s.isExternal && (w.getContainer s.containerName).isSome) = [] →
      MariadbService.startAdmin cfg w = w.removeContainer cfg.adminHostname) ∧
    (cfg.services.filter (fun s =>
        !s.isExternal && (w.getContainer s.containerName).isSome) ≠ [] →
      (MariadbService.startAdmin cfg w).adminServers
        = some ((cfg.services.filter (fun s =>
              !s.isExternal && (w.getContainer s.containerName).isSome)
            ++ cfg.services.filter (fun s => s.isExternal)).map serverEntry) ∧
      (MariadbService.startAdmin cfg w).isRunning cfg.adminHostname = true) := by
  constructor
  · intro hempty
    unfold MariadbService.startAdmin
    rw [hempty]
    simp
  · intro hne
    have hserv : (cfg.services.filter (fun s =>
        !s.isExternal && (w.getContainer s.containerName).isSome)).isEmpty
          = false := by
      rw [Bool.eq_false_iff]
      intro hem
      exact hne (List.isEmpty_iff.mp hem)
    unfold MariadbService.startAdmin
    simp only [hserv, Bool.false_eq_true, if_false]
    rw [startAdminContainer_fresh cfg _
      (prep_countContainer w
        (some ((cfg.services.filter (fun s =>
            !s.isExternal && (w.getContainer s.containerName).isSome)
          ++ cfg.services.filter (fun s => s.isExternal)).map serverEntry))
        cfg.adminHostname)]
    constructor
    · have h1 : ∀ wx : World, ((wx.createContainer
          cfg.adminHostname).startContainer
            cfg.adminHostname).adminServers = wx.adminServers :=
        fun wx => rfl
      rw [h1, mkdirP_adminServers, mkdirP_adminServers, mkdirP_adminServers]
    · exact (afterCreate_facts _ cfg.adminHostname
        (prep_countContainer w
          (some ((cfg.services.filter (fun s =>
              !s.isExternal && (w.getContainer s.containerName).isSome)
            ++ cfg.services.filter (fun s => s.isExternal)).map serverEntry))
          cfg.adminHostname)).2.2.1


/-- Claim C5, counterexample: with zero internal services and one
external service configured, `startAdmin` stops early — no configuration
is generated and no admin container is created — although the claim
requires it to proceed and list the external service. -/
theorem startAdmin_claim_counterexample :
    (MariadbService.startAdmin
      (Config.mk "dbadmin-mariadb.workspace" none
        [Service.ofProps
          { name := "ext", host := some "db.example.com", username := some "u", password := some "p" }])
      (World.mk [] [] [] [] [] none true)).adminServers = none ∧
    (MariadbService.startAdmin
      (Config.mk "dbadmin-mariadb.workspace" none
        [Service.ofProps
          { name := "ext", host := some "db.example.com", username := some "u", password := some "p" }])
      (World.mk [] [] [] [] [] none true)).getContainer
        "dbadmin-mariadb.workspace" = none ∧
    (Config.mk "dbadmin-mariadb.workspace" none
      [Service.ofProps
        { name := "ext", host := some "db.example.com", username := some "u", password := some "p" }]).services.filter
        (fun s => s.isExternal) ≠ [] := by
  refine ⟨?_, ?_, ?_⟩ <;> decide

/-- Witness for the amended C5: one internal service with a container
plus one external service; both are listed and the admin runs. -/
theorem startAdmin_reachability_witness :
    (MariadbService.startAdmin
      (Config.mk "dbadmin-mariadb.workspace" (some "app")
        [Service.ofProps
          { name := "app", username := some "u", password := some "pw", rootPassword := some "rp" },
         Service.ofProps
          { name := "ext", host := some "db.example.com", username := some "eu", password := some "ep" }])
      (World.mk [Container.mk "mariadb-app.ws" true] [] [] [] [] none
        true)).adminServers
      = some [ServerEntry.mk "mariadb-app.ws" (some "root") (some "rp"),
          ServerEntry.mk "db.example.com" (some "eu") (some "ep")] ∧
    (MariadbService.startAdmin
      (Config.mk "dbadmin-mariadb.workspace" (some "app")
        [Service.ofProps
          { name := "app", username := some "u", password := some "pw", rootPassword := some "rp" },
         Service.ofProps
          { name := "ext", host := some "db.example.com", username := some "eu", password := some "ep" }])
      (World.mk [Container.mk "mariadb-app.ws" true] [] [] [] [] none
        true)).isRunning "dbadmin-mariadb.workspace" = true :=
  (startAdmin_reachability
    (Config.mk "dbadmin-mariadb.workspace" (some "app")
      [Service.ofProps
        { name := "app", username := some "u", password := some "pw", rootPassword := some "rp" },
       Service.ofProps
        { name := "ext", host := some "db.example.com", username := some "eu", password := some "ep" }])
    (World.mk [Container.mk "mariadb-app.ws" true] [] [] [] [] none
      true)).2 (by decide)

/-! ## Claim C9 — backup default filename and destination path -/

theorem writeFile_pluginDirs (w : World) (p : String) :
    (w.writeFile p).pluginDirs = w.pluginDirs := rfl

/-- The written file exists afterwards. -/
theorem mem_writeFile (w : World) (p : String) :
    p ∈ (w.writeFile p).files := by
  unfold World.writeFile
  exact List.mem_append_right _ (by simp)

/-- Claim C9: when no filename is supplied, the filename prompt offers
the clock formatted as `yyyy-MM-dd HH-mm` and `.sql` is appended to the
accepted default; the dump directory `dump/<service>/<database>` is
created and the backup file is written at
`dump/<service>/<database>/<formatted clock>.sql`. -/
theorem backup_default_filename_path (cfg : Config) (w : World)
    (n db dbAns : String) (svc : Service) (c : Container)
    (now : MariadbService.DateTime)
    (hn : n ≠ "") (hsvc : cfg.getService n = Except.ok svc)
    (hfound : w.getContainer svc.containerName = some c)
    (hdb : db ≠ "") :
    (MariadbService.backup cfg w (some n) (some db) none now dbAns none).1
      = none ∧
    ("dump/" ++ svc.name ++ "/" ++ db)
      ∈ (MariadbService.backup cfg w (some n) (some db) none now dbAns
          none).2.pluginDirs ∧
    ("dump/" ++ svc.name ++ "/" ++ db ++ "/"
        ++ (MariadbService.backupDefaultFilename now ++ ".sql"))
      ∈ (MariadbService.backup cfg w (some n) (some db) none now dbAns
          none).2.files := by
  have hie : n.isEmpty = false := by
    rw [Bool.eq_false_iff]
    intro hem
    exact hn ((String.isEmpty_iff n).mp hem)
  have hdbe : db.isEmpty = false := by
    rw [Bool.eq_false_iff]
    intro hem
    exact hdb ((String.isEmpty_iff db).mp hem)
  have hg2 : cfg.getServiceOrDefault (some n) = Except.ok svc := by
    unfold Config.getServiceOrDefault
    simp [jsTruthy, hie, hsvc]
  unfold MariadbService.backup
  rw [hg2]
  dsimp only
  rw [hfound]
  simp only [jsTruthy, hdbe, Bool.not_false, if_true, Bool.false_eq_true,
    if_false, Option.getD_some, Option.getD_none]
  refine ⟨trivial, ?_, ?_⟩
  · rw [writeFile_pluginDirs]
    exact mem_mkdirP _ _
  · exact mem_writeFile _ _

/-- Witness for C9: the fixed clock 2024-01-15 10:30 with service `app`
and database `mydb` produces `dump/app/mydb/2024-01-15 10-30.sql`. -/
theorem backup_default_filename_path_witness :
    (MariadbService.backup
      (Config.mk "dbadmin-mariadb.workspace" (some "app")
        [Service.ofProps { name := "app", username := some "u", password := some "p" }])
      (World.mk [Container.mk "mariadb-app.ws" true] [] [] [] [] none true)
      (some "app") (some "mydb") none
      (MariadbService.DateTime.mk 2024 1 15 10 30) "unused" none).1
      = none ∧
    "dump/app/mydb"
      ∈ (MariadbService.backup
        (Config.mk "dbadmin-mariadb.workspace" (some "app")
          [Service.ofProps { name := "app", username := some "u", password := some "p" }])
        (World.mk [Container.mk "mariadb-app.ws" true] [] [] [] [] none true)
        (some "app") (some "mydb") none
        (MariadbService.DateTime.mk 2024 1 15 10 30) "unused"
        none).2.pluginDirs ∧
    "dump/app/mydb/2024-01-15 10-30.sql"
      ∈ (MariadbService.backup
        (Config.mk "dbadmin-mariadb.workspace" (some "app")
          [Service.ofProps { name := "app", username := some "u", password := some "p" }])
        (World.mk [Container.mk "mariadb-app.ws" true] [] [] [] [] none true)
        (some "app") (some "mydb") none
        (MariadbService.DateTime.mk 2024 1 15 10 30) "unused" none).2.files :=
  backup_default_filename_path
    (Config.mk "dbadmin-mariadb.workspace" (some "app")
      [Service.ofProps { name := "app", username := some "u", password := some "p" }])
    (World.mk [Container.mk "mariadb-app.ws" true] [] [] [] [] none true)
    "app" "mydb" "unused"
    (Service.ofProps { name := "app", username := some "u", password := some "p" })
    (Container.mk "mariadb-app.ws" true)
    (MariadbService.DateTime.mk 2024 1 15 10 30)
    (by decide) rfl rfl (by decide)

/-- Witness for C1: a fresh filesystem-mode service `app`; after the
first start the world holds one running container and one db directory,
and the second start returns it unchanged. -/
theorem start_twice_idempotent_witness :
    MariadbService.start
      (Config.mk "dbadmin-mariadb.workspace" (some "app")
        [Service.ofProps { name := "app", username := some "u", password := some "p" }])
      (World.mk [Container.mk "mariadb-app.ws" true] [] ["app"] [] [] none true)
      (some "app") false
      = (none,
          World.mk [Container.mk "mariadb-app.ws" true] [] ["app"] [] [] none true) ∧
    (World.mk [Container.mk "mariadb-app.ws" true] [] ["app"] [] [] none
      true).countContainer "mariadb-app.ws" = 1 ∧
    storageCount
      (Service.ofProps { name := "app", username := some "u", password := some "p" })
      (World.mk [Container.mk "mariadb-app.ws" true] [] ["app"] [] [] none true)
      = 1 ∧
    (World.mk [Container.mk "mariadb-app.ws" true] [] ["app"] [] [] none
      true).isRunning "mariadb-app.ws" = true :=
  start_twice_idempotent
    (Config.mk "dbadmin-mariadb.workspace" (some "app")
      [Service.ofProps { name := "app", username := some "u", password := some "p" }])
    (World.mk [] [] [] [] [] none true) "app"
    (Service.ofProps { name := "app", username := some "u", password := some "p" })
    (World.mk [Container.mk "mariadb-app.ws" true] [] ["app"] [] [] none true)
    (by decide) rfl rfl rfl rfl rfl

end Wocker
